import Mathlib

/-!
Shallow embedding of the playlist-analysis pipeline of src/server.js
(the /api/playlist/:id/analyze route, the error handler around it, and the
helper formatDuration), together with theorems checking the specification
claims about it.

Modelling conventions:
- JS objects used as string-keyed dictionaries (audioFeatures, artistsMap,
  artistCount, genreCount) are modelled as association lists in insertion
  order: assigning a fresh key appends at the end, assigning an existing
  key updates in place.  Where the code enumerates an object
  (Object.entries at lines 254 and 269, Object.values at line 264) the
  model applies jsEntries, which reproduces the ECMAScript own-property
  enumeration order: array-index-like keys (canonical decimal numerals
  below 2^32 - 1) first in ascending numeric order, then the remaining
  keys in insertion order.  Keyed lookups are order-insensitive and read
  the association list directly.
- JS numbers holding track durations, popularities and counts are Nat;
  audio-feature values are rationals.
- Possibly-null / possibly-absent JS values are Option.
- The stable Array.prototype.sort with comparator (a, b) => key(b) - key(a)
  is modelled by a stable insertion sort descending by key (the result of a
  stable sort is uniquely determined, so any stable algorithm is an
  extensionally faithful model).
- The network is modelled by passing each fetch stage its outcome: an
  Except value that is an httpFailure when the upstream response was
  non-success (axios throws in that case).  The body of the route is the
  sequential composition of the stages in the Except monad, which mirrors
  the sequence of awaits: a throw at any stage skips all later stages and
  lands in the catch handler.
-/

namespace SpotifyAnalyzer

/-- Lookup in an insertion-ordered association list (JS object read m[k]). -/
def lookupA {β : Type} : List (String × β) → String → Option β
  | [], _ => none
  | (k, v) :: rest, key => if k = key then some v else lookupA rest key

/-- Assignment m[k] = v on an insertion-ordered association list: an existing
key keeps its position and gets the new value, a fresh key is appended. -/
def setA {β : Type} : List (String × β) → String → β → List (String × β)
  | [], key, v => [(key, v)]
  | (k, w) :: rest, key, v =>
    if k = key then (k, v) :: rest else (k, w) :: setA rest key v

/-- The JS increment pattern m[k] = (m[k] || 0) + 1. -/
def bumpA (m : List (String × Nat)) (key : String) : List (String × Nat) :=
  setA m key ((lookupA m key).getD 0 + 1)

/-- Truthiness of an optional JS string (null, undefined and "" are falsy). -/
def truthy : Option String → Bool
  | none => false
  | some s => !(s == "")

/-- The JS expression a || b on two optional strings ("" is falsy). -/
def jsOr (a b : Option String) : Option String :=
  match a with
  | some s => if s = "" then b else some s
  | none => b

/-- Keep an optional string only when truthy (the .filter(Boolean) idiom). -/
def keepTruthy (o : Option String) : Option String :=
  match o with
  | some s => if s = "" then none else some s
  | none => none

/-- Decimal digit test on a character. -/
def isDigitChar (c : Char) : Bool :=
  48 ≤ c.toNat && c.toNat ≤ 57

/-- The numeric value of a digit string (most significant digit first). -/
def digitsToNat (cs : List Char) : Nat :=
  cs.foldl (fun n c => n * 10 + (c.toNat - 48)) 0

/-- Parse a string of decimal digits (not necessarily canonical). -/
def keyToNat (s : String) : Option Nat :=
  match s.data with
  | [] => none
  | c :: rest =>
    if (c :: rest).all isDigitChar then some (digitsToNat (c :: rest)) else none

/-- An ECMAScript array-index-like property key: a canonical decimal
numeral (ToString of its own numeric value, so no sign and no leading
zero) whose value is below 2^32 - 1.  Such keys are enumerated before all
other own properties, in ascending numeric order, whatever their
insertion order. -/
def isIndexKey (s : String) : Bool :=
  match keyToNat s with
  | some n => toString n == s && n < 4294967295
  | none => false

/-- Insertion into a list sorted non-decreasingly by key, before the first
strictly larger key (stable; among jsEntries index keys the numeric values
are pairwise distinct anyway). -/
def insertAsc {α : Type} (key : α → Nat) (x : α) : List α → List α
  | [] => [x]
  | y :: ys => if key x ≤ key y then x :: y :: ys else y :: insertAsc key x ys

/-- Stable sort, non-decreasing by key. -/
def sortAsc {α : Type} (key : α → Nat) : List α → List α
  | [] => []
  | x :: xs => insertAsc key x (sortAsc key xs)

/-- The enumeration order of Object.entries / Object.values on a JS object
held as an insertion-ordered association list: array-index-like keys first
in ascending numeric order, then the remaining keys in insertion order. -/
def jsEntries {β : Type} (m : List (String × β)) : List (String × β) :=
  sortAsc (fun p => (keyToNat p.1).getD 0) (m.filter (fun p => isIndexKey p.1)) ++
    m.filter (fun p => !(isIndexKey p.1))

/-- The eight named audio-feature fields of the featuresAccumulator object
in src/server.js lines 212-221. -/
inductive FeatureField
  | danceability
  | energy
  | valence
  | tempo
  | acousticness
  | instrumentalness
  | liveness
  | speechiness
deriving DecidableEq, Fintype, Repr

/-- An artist reference inside a track object (id and name may be absent). -/
structure ArtistRef where
  id : Option String
  name : Option String
deriving DecidableEq, Repr

/-- A track object as consumed by the aggregation pass.  The artists array
is optional: the aggregation at line 227 reads it without a guard. -/
structure Track where
  id : Option String
  name : String
  duration_ms : Option Nat
  popularity : Option Nat
  artists : Option (List ArtistRef)
deriving DecidableEq, Repr

/-- A wrapper item of the paginated track collection; the inner track
resource may be null (removed / region-blocked placeholder). -/
structure PageItem where
  track : Option Track
deriving DecidableEq, Repr

/-- One page of the paginated track endpoint (the items array of a page;
the next cursor is implicit in the page sequence handed to the model). -/
structure Page where
  items : List PageItem
deriving DecidableEq, Repr

/-- An audio-features record returned by the batch endpoint.  Each named
field may be missing or null, hence Option. -/
structure AudioFeatures where
  id : Option String
  vals : FeatureField → Option ℚ

/-- A full artist record returned by the artists batch endpoint.  The
genres list models (a.genres || []), so a missing genres field is []. -/
structure ArtistRecord where
  id : String
  genres : List String
deriving DecidableEq, Repr

/-- The tuple pushed into trackPopularity at line 227 of src/server.js. -/
structure TrackTuple where
  id : Option String
  name : String
  artists : String
  popularity : Nat
deriving DecidableEq, Repr

/-- The mutable state threaded through the single aggregation pass
(lines 207-243 of src/server.js). -/
structure AggState where
  totalDurationMs : Nat
  artistCount : List (String × Nat)
  trackPopularity : List TrackTuple
  featuresAcc : FeatureField → ℚ
  featuresCount : Nat

/-- Playlist header fields used by the result formatter. -/
structure PlaylistMeta where
  id : String
  name : String
  ownerDisplayName : Option String
  ownerId : Option String
  images : List String
deriving DecidableEq, Repr

/-- The JSON response assembled at lines 280-297 of src/server.js. -/
structure AnalysisResult where
  playlistId : String
  playlistName : String
  owner : Option String
  totalTracks : Nat
  durationMs : Nat
  durationHuman : String
  image : Option String
  avgFeatures : Option (FeatureField → ℚ)
  featuresCount : Nat
  topArtists : List (String × Nat)
  topTracks : List TrackTuple
  topGenres : List (String × Nat)

/-- The error that escapes the try block of the analyze route: the
not_authenticated throw from ensureAccessToken, an axios error for an
upstream non-success response, or a TypeError thrown by the aggregation. -/
inductive AnalyzeError
  | notAuthenticated
  | httpFailure (status : Nat) (body : String)
  | jsTypeError (message : String)
deriving DecidableEq, Repr

/-- The err.message the catch handler inspects (axios formats non-success
responses this way; the not_authenticated Error carries that literal). -/
def AnalyzeError.message : AnalyzeError → String
  | .notAuthenticated => "not_authenticated"
  | .httpFailure status _ => "Request failed with status code " ++ toString status
  | .jsTypeError m => m

/-- The diagnostic payload err.response?.data || err.message used at
lines 302 and 304 of src/server.js. -/
def AnalyzeError.detail : AnalyzeError → String
  | .httpFailure status body =>
    if body = "" then "Request failed with status code " ++ toString status else body
  | e => e.message

/-- What the route sends back: res.json(result) on success, otherwise the
status and error tag (and optional detail) chosen by the catch handler. -/
inductive RouteOutcome
  | success (body : AnalysisResult)
  | failure (status : Nat) (tag : String) (detail : Option String)

/-- The message thrown by t.artists.map when t.artists is undefined. -/
def typeErrorMsg : String := "TypeError: t.artists is undefined"

/-- The pagination loop of lines 161-170: per page, items.forEach pushes
i.track exactly when the inner track resource is non-null. -/
def collectTracks (pages : List Page) : List Track :=
  pages.foldl
    (fun tracks p =>
      p.items.foldl
        (fun ts i =>
          match i.track with
          | some t => ts ++ [t]
          | none => ts)
        tracks)
    []

/-- Line 173: trackIds = tracks.map(t => t.id).filter(Boolean). -/
def trackIds (tracks : List Track) : List String :=
  (tracks.map Track.id).filterMap keepTruthy

/-- Lines 174-179: collect every artist id across all tracks, in order,
skipping tracks whose artists field is falsy. -/
def artistIds (tracks : List Track) : List (Option String) :=
  tracks.foldl
    (fun acc t =>
      match t.artists with
      | some arts => acc ++ arts.map ArtistRef.id
      | none => acc)
    []

/-- First-occurrence deduplication, as performed by new Set(...) which
keeps insertion order; seen accumulates the values already emitted. -/
def dedupFirstAux {α : Type} [DecidableEq α] : List α → List α → List α
  | _, [] => []
  | seen, x :: xs =>
    if x ∈ seen then dedupFirstAux seen xs
    else x :: dedupFirstAux (x :: seen) xs

/-- Line 195: uniqueArtistIds = [...new Set(artistIds)].filter(Boolean). -/
def uniqueArtistIds (tracks : List Track) : List String :=
  (dedupFirstAux [] (artistIds tracks)).filterMap keepTruthy

/-- The slices produced by a JS loop for (i = 0; i < ids.length; i += bs)
taking slice(i, i + bs) each iteration; fuel bounds the recursion and is
instantiated with the list length, which suffices whenever bs > 0. -/
def chunksAux {α : Type} (bs : Nat) : Nat → List α → List (List α)
  | 0, _ => []
  | _ + 1, [] => []
  | fuel + 1, x :: rest => ((x :: rest).take bs) :: chunksAux bs fuel ((x :: rest).drop bs)

/-- The contiguous chunks of at most bs elements cut from ids. -/
def chunks {α : Type} (bs : Nat) (ids : List α) : List (List α) :=
  chunksAux bs ids.length ids

/-- The chunks for which a request is actually issued: the loops at lines
183-192 and 197-204 join each slice with "," and skip a falsy join result
(if (!batch) continue). -/
def issuedChunks (bs : Nat) (ids : List String) : List (List String) :=
  (chunks bs ids).filter (fun c => !(String.intercalate "," c == ""))

/-- Lines 189-191: merge a batch response list into the audioFeatures map,
keeping records that are non-null with a truthy id. -/
def buildAudioFeatures (resps : List (Option AudioFeatures)) :
    List (String × AudioFeatures) :=
  resps.foldl
    (fun m af? =>
      match af? with
      | none => m
      | some af => if truthy af.id then setA m (af.id.getD "") af else m)
    []

/-- Line 203: artistsMap[a.id] = a for every record of every batch reply. -/
def buildArtistsMap (resps : List ArtistRecord) : List (String × ArtistRecord) :=
  resps.foldl (fun m a => setA m a.id a) []

/-- Lines 263-268: genreCount accumulated over Object.values(artistsMap)
in the object's enumeration order, bumping each genre of each resolved
artist record once per record. -/
def genreCount (artistsMap : List (String × ArtistRecord)) : List (String × Nat) :=
  (jsEntries artistsMap).foldl (fun m p => p.2.genres.foldl (fun m2 g => bumpA m2 g) m) []

/-- The audioFeatures[t.id] read at line 234 (an absent id finds nothing). -/
def getFeature (afMap : List (String × AudioFeatures)) (t : Track) :
    Option AudioFeatures :=
  match t.id with
  | some i => lookupA afMap i
  | none => none

/-- The display key (a.name || a.id) used for artistCount at line 231. -/
def artistKey (a : ArtistRef) : String :=
  (jsOr a.name a.id).getD ""

/-- The body of tracks.forEach at lines 224-243 for one track: add the
duration, push the popularity tuple (reading t.artists WITHOUT a guard, so
a missing artists array throws), bump the per-artist counts (this one IS
guarded), and accumulate the audio features when a record exists. -/
def aggStep (afMap : List (String × AudioFeatures)) (st : AggState) (t : Track) :
    Except AnalyzeError AggState :=
  let dur := st.totalDurationMs + t.duration_ms.getD 0
  match t.artists with
  | none => Except.error (AnalyzeError.jsTypeError typeErrorMsg)
  | some arts =>
    let tuple : TrackTuple :=
      { id := t.id
        name := t.name
        artists := String.intercalate ", " (arts.map (fun a => a.name.getD ""))
        popularity := t.popularity.getD 0 }
    let ac := arts.foldl
      (fun m a => if truthy a.id then bumpA m (artistKey a) else m)
      st.artistCount
    match getFeature afMap t with
    | none =>
      Except.ok
        { totalDurationMs := dur
          artistCount := ac
          trackPopularity := st.trackPopularity ++ [tuple]
          featuresAcc := st.featuresAcc
          featuresCount := st.featuresCount }
    | some af =>
      Except.ok
        { totalDurationMs := dur
          artistCount := ac
          trackPopularity := st.trackPopularity ++ [tuple]
          featuresAcc := fun k => st.featuresAcc k + (af.vals k).getD 0
          featuresCount := st.featuresCount + 1 }

/-- The initial aggregation state of lines 207-222. -/
def initAgg : AggState :=
  { totalDurationMs := 0
    artistCount := []
    trackPopularity := []
    featuresAcc := fun _ => 0
    featuresCount := 0 }

/-- tracks.forEach with a possible throw: run aggStep on each track in
order, aborting as soon as a step throws. -/
def foldAgg (afMap : List (String × AudioFeatures)) :
    AggState → List Track → Except AnalyzeError AggState
  | st, [] => Except.ok st
  | st, t :: ts =>
    match aggStep afMap st t with
    | Except.ok st2 => foldAgg afMap st2 ts
    | Except.error e => Except.error e

/-- The whole single aggregation pass over the track sequence. -/
def aggregate (afMap : List (String × AudioFeatures)) (tracks : List Track) :
    Except AnalyzeError AggState :=
  foldAgg afMap initAgg tracks

/-- Stable insertion of x into a list sorted non-increasingly by key: x is
placed before the first strictly smaller key, after ties (x is the element
that originally came first, see sortDesc). -/
def insertDesc {α : Type} (key : α → Nat) (x : α) : List α → List α
  | [] => [x]
  | y :: ys => if key y ≤ key x then x :: y :: ys else y :: insertDesc key x ys

/-- Stable sort, non-increasing by key: models the stable JS
Array.prototype.sort with comparator (a, b) => key(b) - key(a). -/
def sortDesc {α : Type} (key : α → Nat) : List α → List α
  | [] => []
  | x :: xs => insertDesc key x (sortDesc key xs)

/-- Lines 246-251: average features, an empty object when no track had a
feature record, otherwise each field is acc / count rounded via toFixed(3). -/
def round3 (q : ℚ) : ℚ := ((round (q * 1000) : ℤ) : ℚ) / 1000

/-- The avg_features object: none models the empty object. -/
def avgFeatures (st : AggState) : Option (FeatureField → ℚ) :=
  if st.featuresCount > 0 then
    some (fun k => round3 (st.featuresAcc k / (st.featuresCount : ℚ)))
  else none

/-- Lines 272-278 of src/server.js, verbatim. -/
def formatDuration (ms : Nat) : String :=
  let s := ms / 1000
  let h := s / 3600
  let m := (s % 3600) / 60
  let sec := s % 60
  (if h > 0 then toString h ++ "h " else "") ++ toString m ++ "m " ++ toString sec ++ "s"

/-- The hour component of the h/m/s decomposition of formatDuration. -/
def durH (ms : Nat) : Nat := ms / 1000 / 3600

/-- The minute component of the h/m/s decomposition of formatDuration. -/
def durM (ms : Nat) : Nat := (ms / 1000 % 3600) / 60

/-- The second component of the h/m/s decomposition of formatDuration. -/
def durS (ms : Nat) : Nat := ms / 1000 % 60

/-- The response object built at lines 254-297 from the playlist header,
the retrieved pages, the artist map and the final aggregation state. -/
def mkResult (meta : PlaylistMeta) (pages : List Page)
    (artistsMap : List (String × ArtistRecord)) (st : AggState) : AnalysisResult :=
  { playlistId := meta.id
    playlistName := meta.name
    owner := jsOr meta.ownerDisplayName meta.ownerId
    totalTracks := (collectTracks pages).length
    durationMs := st.totalDurationMs
    durationHuman := formatDuration st.totalDurationMs
    image := keepTruthy meta.images.head?
    avgFeatures := avgFeatures st
    featuresCount := st.featuresCount
    topArtists := (sortDesc Prod.snd (jsEntries st.artistCount)).take 10
    topTracks := (sortDesc TrackTuple.popularity st.trackPopularity).take 10
    topGenres := (sortDesc Prod.snd (jsEntries (genreCount artistsMap))).take 10 }

/-- The try block of the analyze route (lines 151-299): the fetch stages in
source order, each thrown error skipping everything after it, then the
aggregation pass and the result object.  Each fetch stage is handed its
outcome; an upstream non-success response is an httpFailure error (axios
throws on non-2xx).  The nested matches are the Except monad unfolded. -/
def analyzeCore (metaR : Except AnalyzeError PlaylistMeta)
    (pagesR : Except AnalyzeError (List Page))
    (featR : Except AnalyzeError (List (Option AudioFeatures)))
    (artR : Except AnalyzeError (List ArtistRecord)) :
    Except AnalyzeError AnalysisResult :=
  match metaR with
  | Except.error e => Except.error e
  | Except.ok meta =>
    match pagesR with
    | Except.error e => Except.error e
    | Except.ok pages =>
      match featR with
      | Except.error e => Except.error e
      | Except.ok feats =>
        match artR with
        | Except.error e => Except.error e
        | Except.ok arts =>
          match aggregate (buildAudioFeatures feats) (collectTracks pages) with
          | Except.error e => Except.error e
          | Except.ok st => Except.ok (mkResult meta pages (buildArtistsMap arts) st)

/-- The catch handler at lines 301-305: err.message equal to
not_authenticated gives 401, everything else the catch-all 500
analysis_failed with the diagnostic detail. -/
def handleAnalyzeError (e : AnalyzeError) : RouteOutcome :=
  if e.message = "not_authenticated" then RouteOutcome.failure 401 "not_authenticated" none
  else RouteOutcome.failure 500 "analysis_failed" (some e.detail)

/-- The whole route: try block then catch handler. -/
def analyzeRoute (metaR : Except AnalyzeError PlaylistMeta)
    (pagesR : Except AnalyzeError (List Page))
    (featR : Except AnalyzeError (List (Option AudioFeatures)))
    (artR : Except AnalyzeError (List ArtistRecord)) : RouteOutcome :=
  match analyzeCore metaR pagesR featR artR with
  | Except.ok r => RouteOutcome.success r
  | Except.error e => handleAnalyzeError e

/-! Spec-side characterisations of what the aggregation pass computes. -/

/-- Sum of (t.duration_ms || 0) over a track sequence. -/
def sumDurations (tracks : List Track) : Nat :=
  (tracks.map (fun t => t.duration_ms.getD 0)).sum

/-- The trackPopularity tuple a track yields (meaningful when the track
has an artists array; the aggregation throws on the others). -/
def tupleOf (t : Track) : TrackTuple :=
  { id := t.id
    name := t.name
    artists := String.intercalate ", " ((t.artists.getD []).map (fun a => a.name.getD ""))
    popularity := t.popularity.getD 0 }

/-- All artist references credited on the track sequence, in track order. -/
def creditedArtists (tracks : List Track) : List ArtistRef :=
  (tracks.map (fun t => t.artists.getD [])).flatten

/-- Folding the guarded per-artist count bump over a reference list. -/
def artistCountFrom (m0 : List (String × Nat)) (l : List ArtistRef) :
    List (String × Nat) :=
  l.foldl (fun m a => if truthy a.id then bumpA m (artistKey a) else m) m0

/-- The feature records found for the tracks, in track order (one entry per
track that has a record; tracks without a record contribute nothing). -/
def tracksWithFeature (afMap : List (String × AudioFeatures)) (tracks : List Track) :
    List AudioFeatures :=
  tracks.filterMap (getFeature afMap)

/-- Per-field sum over the tracks that have a feature record; a field that
is missing or null in a record contributes 0. -/
def fieldSum (afMap : List (String × AudioFeatures)) (tracks : List Track)
    (k : FeatureField) : ℚ :=
  ((tracksWithFeature afMap tracks).map (fun af => (af.vals k).getD 0)).sum

/-! Association-list lemmas. -/

theorem lookupA_setA_self {β : Type} (m : List (String × β)) (k : String) (v : β) :
    lookupA (setA m k v) k = some v := by
  induction m with
  | nil => simp [setA, lookupA]
  | cons p rest ih =>
    obtain ⟨k', w⟩ := p
    by_cases h : k' = k
    · simp [setA, h, lookupA]
    · simp [setA, h, lookupA, ih]

theorem lookupA_setA_ne {β : Type} (m : List (String × β)) (k k' : String) (v : β)
    (h : k ≠ k') : lookupA (setA m k v) k' = lookupA m k' := by
  induction m with
  | nil => simp [setA, lookupA, h]
  | cons p rest ih =>
    obtain ⟨k0, w⟩ := p
    by_cases h0 : k0 = k
    · subst h0
      simp [setA, lookupA, h]
    · simp [setA, h0, lookupA, ih]

theorem lookupA_bumpA_self (m : List (String × Nat)) (k : String) :
    (lookupA (bumpA m k) k).getD 0 = (lookupA m k).getD 0 + 1 := by
  simp [bumpA, lookupA_setA_self]

theorem lookupA_bumpA_ne (m : List (String × Nat)) (k k' : String) (h : k ≠ k') :
    lookupA (bumpA m k) k' = lookupA m k' := by
  simp [bumpA, lookupA_setA_ne _ _ _ _ h]

/-- Bumping every element of a list of labels adds the occurrence count of
a label to its tally. -/
theorem lookupA_foldl_bumpA (g : String) :
    ∀ (gs : List String) (m : List (String × Nat)),
    (lookupA (gs.foldl (fun m2 x => bumpA m2 x) m) g).getD 0 =
      (lookupA m g).getD 0 + gs.count g := by
  intro gs
  induction gs with
  | nil => simp
  | cons x rest ih =>
    intro m
    by_cases hx : x = g
    · subst hx
      simp [List.foldl_cons, ih, lookupA_bumpA_self, List.count_cons]
      omega
    · simp [List.foldl_cons, ih, lookupA_bumpA_ne _ _ _ hx, List.count_cons, hx]

theorem insertAsc_perm {α : Type} (key : α → Nat) (x : α) :
    ∀ l : List α, List.Perm (insertAsc key x l) (x :: l) := by
  intro l
  induction l with
  | nil => simp [insertAsc]
  | cons y ys ih =>
    by_cases hk : key x ≤ key y
    · simp [insertAsc, hk]
    · simp only [insertAsc, if_neg hk]
      exact List.Perm.trans (List.Perm.cons y ih) (List.Perm.swap x y ys)

theorem sortAsc_perm {α : Type} (key : α → Nat) :
    ∀ l : List α, List.Perm (sortAsc key l) l := by
  intro l
  induction l with
  | nil => simp [sortAsc]
  | cons x xs ih =>
    exact List.Perm.trans (insertAsc_perm key x (sortAsc key xs)) (List.Perm.cons x ih)

/-- Enumerating a JS object yields a permutation of its entries. -/
theorem jsEntries_perm {β : Type} (m : List (String × β)) :
    List.Perm (jsEntries m) m := by
  rw [jsEntries]
  exact List.Perm.trans
    (List.Perm.append_right _ (sortAsc_perm _ _))
    (List.filter_append_perm (fun p => isIndexKey p.1) m)

/-- When no key is array-index-like, the enumeration order of a JS object
is exactly the insertion order. -/
theorem jsEntries_of_no_index {β : Type} (m : List (String × β))
    (h : ∀ p ∈ m, isIndexKey p.1 = false) : jsEntries m = m := by
  have h1 : m.filter (fun p => isIndexKey p.1) = [] := by
    rw [List.filter_eq_nil_iff]
    intro p hp
    simp [h p hp]
  have h2 : m.filter (fun p => !(isIndexKey p.1)) = m := by
    rw [List.filter_eq_self]
    intro p hp
    simp [h p hp]
  rw [jsEntries, h1, h2]
  rfl

/-- The genreCount tally of a label equals the total number of occurrences
of that label over the genre lists of the artist records in the map. -/
theorem lookupA_genreCount (am : List (String × ArtistRecord)) (g : String) :
    (lookupA (genreCount am) g).getD 0 =
      ((am.map (fun p => p.2.genres.count g)).sum) := by
  suffices h : ∀ (am : List (String × ArtistRecord)) (m : List (String × Nat)),
      (lookupA (am.foldl (fun m p => p.2.genres.foldl (fun m2 x => bumpA m2 x) m) m) g).getD 0 =
        (lookupA m g).getD 0 + (am.map (fun p => p.2.genres.count g)).sum by
    have h2 := h (jsEntries am) []
    have hperm : ((jsEntries am).map (fun p => p.2.genres.count g)).sum
        = (am.map (fun p => p.2.genres.count g)).sum :=
      List.Perm.sum_eq (List.Perm.map _ (jsEntries_perm am))
    rw [hperm] at h2
    simpa [genreCount, lookupA] using h2
  intro am
  induction am with
  | nil => simp
  | cons p rest ih =>
    intro m
    simp only [List.foldl_cons, ih, lookupA_foldl_bumpA, List.map_cons, List.sum_cons]
    omega

/-- The keys after an assignment: unchanged when the key was present,
otherwise the key is appended at the end. -/
theorem keys_setA {β : Type} (m : List (String × β)) (k : String) (v : β) :
    (setA m k v).map Prod.fst =
      if k ∈ m.map Prod.fst then m.map Prod.fst else m.map Prod.fst ++ [k] := by
  induction m with
  | nil => simp [setA]
  | cons p rest ih =>
    obtain ⟨k0, w⟩ := p
    by_cases h0 : k0 = k
    · simp [setA, h0]
    · have hne : ¬ k = k0 := fun h => h0 h.symm
      by_cases hmem : k ∈ rest.map Prod.fst
      · simp [setA, h0, ih, hmem, hne]
      · simp [setA, h0, ih, hmem, hne]

/-- setA preserves the no-duplicate-keys invariant of an association list. -/
theorem nodup_keys_setA {β : Type} (m : List (String × β)) (k : String) (v : β)
    (h : (m.map Prod.fst).Nodup) : ((setA m k v).map Prod.fst).Nodup := by
  rw [keys_setA]
  by_cases hmem : k ∈ m.map Prod.fst
  · simpa [hmem] using h
  · simp only [hmem, if_false]
    rw [List.nodup_append]
    refine ⟨h, by simp, ?_⟩
    intro a ha hak
    simp at hak
    exact hmem (hak ▸ ha)

/-- The artistsMap built at line 203 has pairwise-distinct artist ids: one
record per unique artist id, whatever the batch replies contained. -/
theorem nodup_keys_buildArtistsMap (resps : List ArtistRecord) :
    ((buildArtistsMap resps).map Prod.fst).Nodup := by
  suffices h : ∀ (resps : List ArtistRecord) (m : List (String × ArtistRecord)),
      (m.map Prod.fst).Nodup →
      ((resps.foldl (fun m a => setA m a.id a) m).map Prod.fst).Nodup by
    exact h resps [] (by simp)
  intro resps
  induction resps with
  | nil => intro m hm; simpa using hm
  | cons a rest ih =>
    intro m hm
    exact ih _ (nodup_keys_setA m a.id a hm)

/-! Stable-sort lemmas. -/

theorem mem_insertDesc {α : Type} {key : α → Nat} {x z : α} :
    ∀ {l : List α}, z ∈ insertDesc key x l → z = x ∨ z ∈ l := by
  intro l
  induction l with
  | nil => intro h; simpa [insertDesc] using h
  | cons y ys ih =>
    intro h
    by_cases hk : key y ≤ key x
    · simp only [insertDesc, if_pos hk, List.mem_cons] at h
      rcases h with h | h | h
      · exact Or.inl h
      · exact Or.inr (by simp [h])
      · exact Or.inr (by simp [h])
    · simp only [insertDesc, if_neg hk, List.mem_cons] at h
      rcases h with h | h
      · exact Or.inr (by simp [h])
      · rcases ih h with h2 | h2
        · exact Or.inl h2
        · exact Or.inr (by simp [h2])

theorem pairwise_insertDesc {α : Type} (key : α → Nat) (x : α) :
    ∀ {l : List α}, List.Pairwise (fun a b => key b ≤ key a) l →
    List.Pairwise (fun a b => key b ≤ key a) (insertDesc key x l) := by
  intro l
  induction l with
  | nil => intro _; simp [insertDesc]
  | cons y ys ih =>
    intro h
    rcases List.pairwise_cons.1 h with ⟨hy, hys⟩
    by_cases hk : key y ≤ key x
    · simp only [insertDesc, if_pos hk]
      refine List.pairwise_cons.2 ⟨?_, h⟩
      intro z hz
      rcases List.mem_cons.1 hz with hz | hz
      · simpa [hz] using hk
      · exact le_trans (hy z hz) hk
    · simp only [insertDesc, if_neg hk]
      refine List.pairwise_cons.2 ⟨?_, ih hys⟩
      intro z hz
      rcases mem_insertDesc hz with hz | hz
      · subst hz
        omega
      · exact hy z hz

/-- The output of sortDesc is sorted non-increasingly by key. -/
theorem pairwise_sortDesc {α : Type} (key : α → Nat) (l : List α) :
    List.Pairwise (fun a b => key b ≤ key a) (sortDesc key l) := by
  induction l with
  | nil => simp [sortDesc]
  | cons x xs ih => exact pairwise_insertDesc key x ih

theorem filter_insertDesc_pos {α : Type} (key : α → Nat) (x : α) (n : Nat)
    (hx : key x = n) :
    ∀ (l : List α), (insertDesc key x l).filter (fun a => key a == n) =
      x :: l.filter (fun a => key a == n) := by
  intro l
  induction l with
  | nil => simp [insertDesc, List.filter_cons, hx]
  | cons y ys ih =>
    by_cases hk : key y ≤ key x
    · simp only [insertDesc, if_pos hk]
      simp [List.filter_cons, hx]
    · have hyn : ¬ key y = n := by omega
      simp [insertDesc, hk, List.filter_cons, hyn, ih]

theorem filter_insertDesc_neg {α : Type} (key : α → Nat) (x : α) (n : Nat)
    (hx : key x ≠ n) :
    ∀ (l : List α), (insertDesc key x l).filter (fun a => key a == n) =
      l.filter (fun a => key a == n) := by
  intro l
  induction l with
  | nil => simp [insertDesc, List.filter_cons, hx]
  | cons y ys ih =>
    by_cases hk : key y ≤ key x
    · simp only [insertDesc, if_pos hk]
      simp [List.filter_cons, hx]
    · simp only [insertDesc, if_neg hk, List.filter_cons]
      by_cases hyn : key y = n
      · simp [hyn, ih]
      · simp [hyn, ih]

/-- Stability of sortDesc: for every key value, the elements carrying that
key appear in the output in exactly their input order. -/
theorem sortDesc_filter {α : Type} (key : α → Nat) (n : Nat) :
    ∀ (l : List α), (sortDesc key l).filter (fun a => key a == n) =
      l.filter (fun a => key a == n) := by
  intro l
  induction l with
  | nil => simp [sortDesc]
  | cons x xs ih =>
    by_cases hx : key x = n
    · rw [sortDesc, filter_insertDesc_pos key x n hx, ih]
      simp [List.filter_cons, hx]
    · rw [sortDesc, filter_insertDesc_neg key x n hx, ih]
      simp [List.filter_cons, hx]

/-! Chunking lemmas (the two batch loops). -/

theorem chunksAux_flatten {α : Type} (bs : Nat) (hbs : 0 < bs) :
    ∀ (fuel : Nat) (ids : List α), ids.length ≤ fuel →
    (chunksAux bs fuel ids).flatten = ids := by
  intro fuel
  induction fuel with
  | zero =>
    intro ids h
    have : ids = [] := List.eq_nil_of_length_eq_zero (Nat.le_zero.1 h)
    simp [this, chunksAux]
  | succ fuel ih =>
    intro ids h
    cases ids with
    | nil => simp [chunksAux]
    | cons x rest =>
      have hlen : ((x :: rest).drop bs).length ≤ fuel := by
        simp only [List.length_drop, List.length_cons]
        simp only [List.length_cons] at h
        omega
      simp only [chunksAux, List.flatten_cons, ih _ hlen, List.take_append_drop]

theorem chunksAux_mem {α : Type} (bs : Nat) (hbs : 0 < bs) :
    ∀ (fuel : Nat) (ids : List α) (c : List α), c ∈ chunksAux bs fuel ids →
    c ≠ [] ∧ c.length ≤ bs := by
  intro fuel
  induction fuel with
  | zero => intro ids c h; simp [chunksAux] at h
  | succ fuel ih =>
    intro ids c h
    cases ids with
    | nil => simp [chunksAux] at h
    | cons x rest =>
      simp only [chunksAux, List.mem_cons] at h
      rcases h with h | h
      · subst h
        constructor
        · obtain ⟨b, rfl⟩ : ∃ b, bs = b + 1 := ⟨bs - 1, by omega⟩
          simp [List.take_succ_cons]
        · simp [List.length_take]
      · exact ih _ _ h

/-- Every chunk cut by the batch loop is nonempty and at most bs long. -/
theorem chunks_mem {α : Type} (bs : Nat) (hbs : 0 < bs) (ids : List α)
    (c : List α) (h : c ∈ chunks bs ids) : c ≠ [] ∧ c.length ≤ bs :=
  chunksAux_mem bs hbs ids.length ids c h

/-- The chunks are contiguous: concatenated in order they give back the
input id list. -/
theorem chunks_flatten {α : Type} (bs : Nat) (hbs : 0 < bs) (ids : List α) :
    (chunks bs ids).flatten = ids :=
  chunksAux_flatten bs hbs ids.length ids (le_refl _)

/-- A chunk that leads to an issued request is one of the cut chunks. -/
theorem issuedChunks_subset (bs : Nat) (ids : List String) (c : List String)
    (h : c ∈ issuedChunks bs ids) : c ∈ chunks bs ids :=
  (List.mem_filter.1 h).1

/-! Pagination lemmas. -/

theorem foldl_pushTracks (items : List PageItem) :
    ∀ acc : List Track,
    items.foldl
        (fun ts i => match i.track with | some t => ts ++ [t] | none => ts) acc
      = acc ++ items.filterMap PageItem.track := by
  induction items with
  | nil => intro acc; simp
  | cons i rest ih =>
    intro acc
    cases h : i.track with
    | none => simp [List.foldl_cons, h, ih, List.filterMap_cons]
    | some t => simp [List.foldl_cons, h, ih, List.filterMap_cons]

/-- The pagination loop keeps, in page order, exactly the wrapper items
whose inner track resource is non-null. -/
theorem collectTracks_eq (pages : List Page) :
    collectTracks pages =
      pages.flatMap (fun p => p.items.filterMap PageItem.track) := by
  suffices h : ∀ acc : List Track,
      pages.foldl
          (fun tracks p =>
            p.items.foldl
              (fun ts i => match i.track with | some t => ts ++ [t] | none => ts)
              tracks)
          acc
        = acc ++ pages.flatMap (fun p => p.items.filterMap PageItem.track) by
    simpa [collectTracks] using h []
  induction pages with
  | nil => intro acc; simp
  | cons p ps ih =>
    intro acc
    simp only [List.foldl_cons]
    rw [foldl_pushTracks, ih]
    simp [List.flatMap_cons, List.append_assoc]

theorem length_filterMap_eq_countP {α β : Type} (f : α → Option β) :
    ∀ l : List α, (l.filterMap f).length = l.countP (fun x => (f x).isSome) := by
  intro l
  induction l with
  | nil => simp
  | cons x rest ih =>
    cases h : f x with
    | none => simp [List.filterMap_cons, h, List.countP_cons, ih]
    | some b => simp [List.filterMap_cons, h, List.countP_cons, ih]

/-- The number of retrieved track entries equals the number of wrapper
items with a non-null inner track, over all pages. -/
theorem collectTracks_length (pages : List Page) :
    (collectTracks pages).length =
      (pages.flatMap Page.items).countP (fun i => i.track.isSome) := by
  rw [collectTracks_eq]
  induction pages with
  | nil => simp
  | cons p ps ih =>
    simp [List.flatMap_cons, List.countP_append, ih, length_filterMap_eq_countP]

/-! Aggregation-pass lemmas. -/

/-- If every track carries an artists array, the aggregation pass runs to
completion and computes, from any starting state: the duration sum, the
guarded per-artist counts over all credited artist references, the
popularity tuples in playlist order, the per-field feature sums over the
tracks that have a feature record, and the count of such tracks. -/
theorem foldAgg_ok (afMap : List (String × AudioFeatures)) :
    ∀ (tracks : List Track) (st : AggState),
    (∀ t ∈ tracks, t.artists.isSome = true) →
    foldAgg afMap st tracks = Except.ok
      { totalDurationMs := st.totalDurationMs + sumDurations tracks
        artistCount := artistCountFrom st.artistCount (creditedArtists tracks)
        trackPopularity := st.trackPopularity ++ tracks.map tupleOf
        featuresAcc := fun k => st.featuresAcc k + fieldSum afMap tracks k
        featuresCount := st.featuresCount + (tracksWithFeature afMap tracks).length } := by
  intro tracks
  induction tracks with
  | nil =>
    intro st _
    obtain ⟨d, ac, tp, fa, fc⟩ := st
    simp [foldAgg, sumDurations, creditedArtists, artistCountFrom,
      tracksWithFeature, fieldSum, AggState.mk.injEq]
  | cons t ts ih =>
    intro st hall
    obtain ⟨arts, harts⟩ := Option.isSome_iff_exists.1 (hall t (by simp))
    have hts : ∀ u ∈ ts, u.artists.isSome = true := fun u hu => hall u (by simp [hu])
    cases hgf : getFeature afMap t with
    | none =>
      have hstep : aggStep afMap st t = Except.ok
          { totalDurationMs := st.totalDurationMs + t.duration_ms.getD 0
            artistCount := artistCountFrom st.artistCount arts
            trackPopularity := st.trackPopularity ++ [tupleOf t]
            featuresAcc := st.featuresAcc
            featuresCount := st.featuresCount } := by
        simp [aggStep, harts, hgf, artistCountFrom, tupleOf]
      rw [foldAgg, hstep]
      show foldAgg afMap _ ts = _
      rw [ih _ hts]
      simp only [Except.ok.injEq, AggState.mk.injEq]
      refine ⟨?_, ?_, ?_, ?_, ?_⟩
      · simp [sumDurations]
        omega
      · simp [creditedArtists, harts, artistCountFrom, List.foldl_append]
      · simp [tupleOf, harts, List.append_assoc]
      · funext k
        simp [fieldSum, tracksWithFeature, List.filterMap_cons, hgf]
      · simp [tracksWithFeature, List.filterMap_cons, hgf]
    | some af =>
      have hstep : aggStep afMap st t = Except.ok
          { totalDurationMs := st.totalDurationMs + t.duration_ms.getD 0
            artistCount := artistCountFrom st.artistCount arts
            trackPopularity := st.trackPopularity ++ [tupleOf t]
            featuresAcc := fun k => st.featuresAcc k + (af.vals k).getD 0
            featuresCount := st.featuresCount + 1 } := by
        simp [aggStep, harts, hgf, artistCountFrom, tupleOf]
      rw [foldAgg, hstep]
      show foldAgg afMap _ ts = _
      rw [ih _ hts]
      simp only [Except.ok.injEq, AggState.mk.injEq]
      refine ⟨?_, ?_, ?_, ?_, ?_⟩
      · simp [sumDurations]
        omega
      · simp [creditedArtists, harts, artistCountFrom, List.foldl_append]
      · simp [tupleOf, harts, List.append_assoc]
      · funext k
        simp [fieldSum, tracksWithFeature, List.filterMap_cons, hgf]
        ring
      · simp [tracksWithFeature, List.filterMap_cons, hgf]
        omega

/-- If some track lacks an artists array, the aggregation pass throws the
TypeError from the unguarded t.artists.map, whatever the state so far. -/
theorem foldAgg_error (afMap : List (String × AudioFeatures)) :
    ∀ (tracks : List Track) (st : AggState),
    (∃ t ∈ tracks, t.artists = none) →
    foldAgg afMap st tracks = Except.error (AnalyzeError.jsTypeError typeErrorMsg) := by
  intro tracks
  induction tracks with
  | nil => intro st h; simp at h
  | cons t ts ih =>
    intro st h
    cases harts : t.artists with
    | none => simp [foldAgg, aggStep, harts]
    | some arts =>
      rcases h with ⟨u, hu, hnone⟩
      rcases List.mem_cons.1 hu with hu | hu
      · rw [hu] at hnone
        rw [hnone] at harts
        cases harts
      · cases hgf : getFeature afMap t with
        | none =>
          simp only [foldAgg, aggStep, harts, hgf]
          exact ih _ ⟨u, hu, hnone⟩
        | some af =>
          simp only [foldAgg, aggStep, harts, hgf]
          exact ih _ ⟨u, hu, hnone⟩

/-- Closed form of a successful aggregation from the initial state. -/
theorem aggregate_ok (afMap : List (String × AudioFeatures)) (tracks : List Track)
    (h : ∀ t ∈ tracks, t.artists.isSome = true) :
    aggregate afMap tracks = Except.ok
      { totalDurationMs := sumDurations tracks
        artistCount := artistCountFrom [] (creditedArtists tracks)
        trackPopularity := tracks.map tupleOf
        featuresAcc := fun k => fieldSum afMap tracks k
        featuresCount := (tracksWithFeature afMap tracks).length } := by
  rw [aggregate, foldAgg_ok afMap tracks initAgg h]
  simp [initAgg, AggState.mk.injEq]

/-- A successful aggregation means every track had an artists array. -/
theorem artists_present_of_aggregate_ok (afMap : List (String × AudioFeatures))
    (tracks : List Track) (st : AggState)
    (h : aggregate afMap tracks = Except.ok st) :
    ∀ t ∈ tracks, t.artists.isSome = true := by
  intro t ht
  cases harts : t.artists with
  | some arts => simp
  | none =>
    rw [aggregate, foldAgg_error afMap tracks initAgg ⟨t, ht, harts⟩] at h
    cases h

/-- Inversion: the state a successful aggregation ends in. -/
theorem aggregate_ok_inv (afMap : List (String × AudioFeatures))
    (tracks : List Track) (st : AggState)
    (h : aggregate afMap tracks = Except.ok st) :
    st = { totalDurationMs := sumDurations tracks
           artistCount := artistCountFrom [] (creditedArtists tracks)
           trackPopularity := tracks.map tupleOf
           featuresAcc := fun k => fieldSum afMap tracks k
           featuresCount := (tracksWithFeature afMap tracks).length } := by
  have h2 := aggregate_ok afMap tracks (artists_present_of_aggregate_ok afMap tracks st h)
  rw [h] at h2
  exact Except.ok.inj h2

/-- Inversion of a successful analyzeCore run with all fetches succeeding:
the aggregation succeeded and the response is mkResult of its state. -/
theorem analyzeCore_ok_inv (m : PlaylistMeta) (p : List Page)
    (f : List (Option AudioFeatures)) (a : List ArtistRecord) (res : AnalysisResult)
    (hr : analyzeCore (Except.ok m) (Except.ok p) (Except.ok f) (Except.ok a) =
      Except.ok res) :
    ∃ st, aggregate (buildAudioFeatures f) (collectTracks p) = Except.ok st ∧
      res = mkResult m p (buildArtistsMap a) st := by
  cases hagg : aggregate (buildAudioFeatures f) (collectTracks p) with
  | error e =>
    rw [analyzeCore, hagg] at hr
    cases hr
  | ok st =>
    rw [analyzeCore, hagg] at hr
    exact ⟨st, rfl, (Except.ok.inj hr).symm⟩

/-! Error-path lemmas. -/

theorem length_append_str (a b : String) : (a ++ b).length = a.length + b.length := by
  show (a ++ b).data.length = _
  rw [show (a ++ b).data = a.data ++ b.data from rfl, List.length_append]
  rfl

/-- The message of an axios HTTP failure is never the not_authenticated
literal, so such failures always reach the catch-all branch. -/
theorem httpFailure_message_ne (s : Nat) (b : String) :
    AnalyzeError.message (AnalyzeError.httpFailure s b) ≠ "not_authenticated" := by
  intro h
  have hlen := congrArg String.length h
  rw [AnalyzeError.message, length_append_str] at hlen
  have e1 : ("Request failed with status code ").length = 32 := by decide
  have e2 : ("not_authenticated" : String).length = 17 := by decide
  omega

/-- What the catch handler does with an upstream HTTP failure. -/
theorem handle_httpFailure (s : Nat) (b : String) :
    handleAnalyzeError (AnalyzeError.httpFailure s b) =
      RouteOutcome.failure 500 "analysis_failed"
        (some (AnalyzeError.detail (AnalyzeError.httpFailure s b))) := by
  rw [handleAnalyzeError, if_neg (httpFailure_message_ne s b)]

/-! Concrete scenario inputs used by counterexamples and witnesses. -/

/-- A sample playlist header. -/
def sampleMeta : PlaylistMeta :=
  { id := "pl1"
    name := "Playlist"
    ownerDisplayName := some "Owner"
    ownerId := some "owner1"
    images := ["cover"] }

/-- A sample artist reference with id a1. -/
def artistA : ArtistRef := { id := some "a1", name := some "Alice" }

/-- A sample artist reference with id a2. -/
def artistB : ArtistRef := { id := some "a2", name := some "Bob" }

/-- A sample track with the given id and artist credits. -/
def mkTrack (i : String) (arts : List ArtistRef) : Track :=
  { id := some i
    name := i
    duration_ms := some 1000
    popularity := some 10
    artists := some arts }

/-- Extract the ok value of an Except, with a fallback for the error case
(used to name concrete computation results in witnesses). -/
def okOr {α : Type} (fb : α) : Except AnalyzeError α → α
  | Except.ok x => x
  | Except.error _ => fb

/-- A fallback response value. -/
def emptyResult : AnalysisResult := mkResult sampleMeta [] [] initAgg

/-- C1 scenario: artist a1 is credited on two track entries and resolves
to a record with the single genre pop. -/
def pagesC1 : List Page :=
  [⟨[⟨some (mkTrack "t1" [artistA])⟩, ⟨some (mkTrack "t2" [artistA])⟩]⟩]

/-- C1 scenario artist records. -/
def recsC1 : List ArtistRecord := [⟨"a1", ["pop"]⟩]

/-- C2 scenario: tracks t1 and t2 credit artist a1 (genres pop and indie),
track t3 credits artist a2 (genre pop). -/
def pagesC2 : List Page :=
  [⟨[⟨some (mkTrack "t1" [artistA])⟩, ⟨some (mkTrack "t2" [artistA])⟩,
     ⟨some (mkTrack "t3" [artistB])⟩]⟩]

/-- C2 scenario artist records. -/
def recsC2 : List ArtistRecord := [⟨"a1", ["pop", "indie"]⟩, ⟨"a2", ["pop"]⟩]

/-! Claim theorems. -/

/-- Claim C1, counterexample: with artist a1 credited on N = 2 track
entries and resolved genres [pop], the genre counts behind top_genres give
pop the tally 1 (once per unique artist record), not the claimed N = 2. -/
theorem claim_C1_counterexample :
    Except.map AnalysisResult.topGenres
        (analyzeCore (Except.ok sampleMeta) (Except.ok pagesC1)
          (Except.ok []) (Except.ok recsC1))
      = Except.ok [("pop", 1)] ∧
    Except.map AnalysisResult.topGenres
        (analyzeCore (Except.ok sampleMeta) (Except.ok pagesC1)
          (Except.ok []) (Except.ok recsC1))
      ≠ Except.ok [("pop", 2)] := by
  have h1 : Except.map AnalysisResult.topGenres
      (analyzeCore (Except.ok sampleMeta) (Except.ok pagesC1)
        (Except.ok []) (Except.ok recsC1))
      = Except.ok [("pop", 1)] := rfl
  refine ⟨h1, fun h => ?_⟩
  rw [h1] at h
  exact absurd (Except.ok.inj h) (by decide)

/-- Claim C1, amended: each genre label of a resolved artist contributes
once per occurrence in that unique artist record's genre list to the genre
counts from which top_genres is ranked — genre counting is per unique
artist record in artistsMap (whose keys are pairwise distinct), not per
track-artist occurrence, so the tally is independent of how many track
entries credit the artist. -/
theorem claim_C1 (resps : List ArtistRecord) (g : String) :
    (lookupA (genreCount (buildArtistsMap resps)) g).getD 0 =
      ((buildArtistsMap resps).map (fun p => p.2.genres.count g)).sum ∧
    ((buildArtistsMap resps).map Prod.fst).Nodup :=
  ⟨lookupA_genreCount (buildArtistsMap resps) g, nodup_keys_buildArtistsMap resps⟩

/-- Claim C2: in the scenario where two tracks credit artist a1 with
resolved genres [pop, indie] and a third track credits artist a2 with
genres [pop], analyze returns top_genres = [(pop, 2), (indie, 1)]: each
resolved artist record's genre list is counted exactly once, however many
tracks credit the artist. -/
theorem claim_C2 :
    Except.map AnalysisResult.topGenres
        (analyzeCore (Except.ok sampleMeta) (Except.ok pagesC2)
          (Except.ok []) (Except.ok recsC2))
      = Except.ok [("pop", 2), ("indie", 1)] := rfl

/-- Claim C3, counterexample: an upstream non-success response during the
metadata stage aborts the run, but the surfaced error tag is the catch-all
analysis_failed (with the upstream body as detail), not the claimed
upstream_fetch_failed, which appears nowhere in the route. -/
theorem claim_C3_counterexample :
    analyzeRoute (Except.error (AnalyzeError.httpFailure 502 "bad gateway"))
        (Except.ok []) (Except.ok []) (Except.ok [])
      = RouteOutcome.failure 500 "analysis_failed" (some "bad gateway") ∧
    "analysis_failed" ≠ "upstream_fetch_failed" := by
  refine ⟨?_, by decide⟩
  rw [analyzeRoute]
  show handleAnalyzeError (AnalyzeError.httpFailure 502 "bad gateway") = _
  rw [handle_httpFailure]
  rfl

/-- Claim C3, amended: any upstream non-success response (an axios throw
carrying the HTTP status and body) during the metadata, paging, or batch
stages aborts all remaining stages, and the route surfaces it as the
catch-all analysis_failed with HTTP status 500 and the upstream response
body as the detail payload; only not_authenticated is distinguished (401).
No upstream_fetch_failed tag exists in the code. -/
theorem claim_C3 (s : Nat) (b : String) :
    (∀ pR fR aR, analyzeCore (Except.error (AnalyzeError.httpFailure s b)) pR fR aR
      = Except.error (AnalyzeError.httpFailure s b)) ∧
    (∀ m fR aR, analyzeCore (Except.ok m)
        (Except.error (AnalyzeError.httpFailure s b)) fR aR
      = Except.error (AnalyzeError.httpFailure s b)) ∧
    (∀ m p aR, analyzeCore (Except.ok m) (Except.ok p)
        (Except.error (AnalyzeError.httpFailure s b)) aR
      = Except.error (AnalyzeError.httpFailure s b)) ∧
    (∀ m p f, analyzeCore (Except.ok m) (Except.ok p) (Except.ok f)
        (Except.error (AnalyzeError.httpFailure s b))
      = Except.error (AnalyzeError.httpFailure s b)) ∧
    (∀ mR pR fR aR,
      analyzeCore mR pR fR aR = Except.error (AnalyzeError.httpFailure s b) →
      analyzeRoute mR pR fR aR = RouteOutcome.failure 500 "analysis_failed"
        (some (AnalyzeError.detail (AnalyzeError.httpFailure s b)))) ∧
    (∀ pR fR aR, analyzeRoute (Except.error AnalyzeError.notAuthenticated) pR fR aR
      = RouteOutcome.failure 401 "not_authenticated" none) := by
  refine ⟨fun _ _ _ => rfl, fun _ _ _ => rfl, fun _ _ _ => rfl, fun _ _ _ => rfl,
    ?_, fun _ _ _ => rfl⟩
  intro mR pR fR aR h
  rw [analyzeRoute, h]
  exact handle_httpFailure s b

/-- Witness for claim C3: a concrete paging-stage failure reaches the
caller as a 500 analysis_failed carrying the upstream body. -/
theorem claim_C3_witness :
    analyzeRoute (Except.ok sampleMeta)
        (Except.error (AnalyzeError.httpFailure 502 "oops"))
        (Except.ok []) (Except.ok [])
      = RouteOutcome.failure 500 "analysis_failed"
          (some (AnalyzeError.detail (AnalyzeError.httpFailure 502 "oops"))) :=
  (claim_C3 502 "oops").2.2.2.2.1 (Except.ok sampleMeta)
    (Except.error (AnalyzeError.httpFailure 502 "oops"))
    (Except.ok []) (Except.ok []) rfl

/-- Claim C4: the reported total_tracks equals the number of track entries
retrieved by the pagination loop — wrapper items whose inner track is null
are skipped (without any error: the loop is total) and not counted, while
retrieved tracks are counted whether or not their identifier is null. -/
theorem claim_C4 (m : PlaylistMeta) (p : List Page)
    (f : List (Option AudioFeatures)) (a : List ArtistRecord)
    (res : AnalysisResult)
    (hr : analyzeCore (Except.ok m) (Except.ok p) (Except.ok f) (Except.ok a)
      = Except.ok res) :
    res.totalTracks = (collectTracks p).length ∧
    res.totalTracks = (p.flatMap Page.items).countP (fun i => i.track.isSome) := by
  obtain ⟨st, hagg, hres⟩ := analyzeCore_ok_inv m p f a res hr
  subst hres
  exact ⟨rfl, collectTracks_length p⟩

/-- C4 witness scenario: one null wrapper item, one track whose id is null
and one ordinary track, split over two pages. -/
def trackNullId : Track :=
  { id := none
    name := "local"
    duration_ms := some 500
    popularity := none
    artists := some [] }

/-- C4 witness pages. -/
def pagesC4 : List Page :=
  [⟨[⟨some (mkTrack "t1" [artistA])⟩, ⟨none⟩]⟩, ⟨[⟨some trackNullId⟩]⟩]

/-- The concrete response of the C4 scenario. -/
def resC4 : AnalysisResult :=
  okOr emptyResult
    (analyzeCore (Except.ok sampleMeta) (Except.ok pagesC4)
      (Except.ok []) (Except.ok []))

/-- Witness for claim C4: in the concrete scenario the summary counts the
two retrieved tracks (one with a null id) and not the null wrapper. -/
theorem claim_C4_witness :
    resC4.totalTracks = (collectTracks pagesC4).length ∧
    resC4.totalTracks = (pagesC4.flatMap Page.items).countP (fun i => i.track.isSome) :=
  claim_C4 sampleMeta pagesC4 [] [] resC4 rfl

/-- The 250 track ids of the C5 batch scenario. -/
def ids250 : List String := (List.range 250).map (fun n => "t" ++ toString n)

set_option maxRecDepth 8000 in
/-- Claim C5: the batch loops split the id list into contiguous chunks of
at most the batch size (concatenating the chunks gives back the list);
every chunk for which a request is issued is nonempty and at most the
batch size; an id list of length 250 with batch size 100 issues exactly
the chunks of sizes 100, 100, 50; an empty id list issues no request. -/
theorem claim_C5 (bs : Nat) (ids : List String) (hbs : 0 < bs) :
    (chunks bs ids).flatten = ids ∧
    (∀ c ∈ issuedChunks bs ids, c ≠ [] ∧ c.length ≤ bs) ∧
    (issuedChunks 100 ids250).map List.length = [100, 100, 50] ∧
    issuedChunks 100 ([] : List String) = [] := by
  refine ⟨chunks_flatten bs hbs ids, ?_, ?_, rfl⟩
  · intro c hc
    exact chunks_mem bs hbs ids c (issuedChunks_subset bs ids c hc)
  · decide

/-- Witness for claim C5 at batch size 100 over the 250-id list. -/
theorem claim_C5_witness :
    0 < 100 ∧ (issuedChunks 100 ids250).map List.length = [100, 100, 50] :=
  ⟨by decide, (claim_C5 100 ids250 (by decide)).2.2.1⟩

/-- The field values present in a list of feature records, in order. -/
def fieldValues (twf : List AudioFeatures) (k : FeatureField) : List ℚ :=
  twf.filterMap (fun af => af.vals k)

/-- When every record carries the field, the missing-as-zero sum is the
plain sum of the field values. -/
theorem fieldSum_eq_of_all_present (k : FeatureField) :
    ∀ twf : List AudioFeatures, (∀ af ∈ twf, (af.vals k).isSome = true) →
    (twf.map (fun af => (af.vals k).getD 0)).sum = (fieldValues twf k).sum := by
  intro twf
  induction twf with
  | nil => intro _; simp [fieldValues]
  | cons af rest ih =>
    intro h
    cases h0 : af.vals k with
    | none =>
      have := h af (by simp)
      rw [h0] at this
      cases this
    | some q =>
      have hrest : ∀ af2 ∈ rest, (af2.vals k).isSome = true :=
        fun af2 h2 => h af2 (by simp [h2])
      simp [fieldValues, List.filterMap_cons, h0, ih hrest]

/-- Claim C6: avg_features is the empty object exactly when no track has a
feature record; otherwise (assuming, as the claim reads, that every record
carries every named field) each named field of avg_features equals the sum
of that field over the tracks with a feature record, divided by the number
of tracks with a record, rounded to 3 decimal places. -/
theorem claim_C6 (m : PlaylistMeta) (p : List Page)
    (f : List (Option AudioFeatures)) (a : List ArtistRecord)
    (res : AnalysisResult)
    (hr : analyzeCore (Except.ok m) (Except.ok p) (Except.ok f) (Except.ok a)
      = Except.ok res)
    (hAll : ∀ af ∈ tracksWithFeature (buildAudioFeatures f) (collectTracks p),
      ∀ k, (af.vals k).isSome = true) :
    (res.featuresCount = 0 → res.avgFeatures = none) ∧
    (0 < res.featuresCount →
      res.avgFeatures = some (fun k =>
        round3 ((fieldValues (tracksWithFeature (buildAudioFeatures f) (collectTracks p)) k).sum /
          ((tracksWithFeature (buildAudioFeatures f) (collectTracks p)).length : ℚ)))) := by
  obtain ⟨st, hagg, hres⟩ := analyzeCore_ok_inv m p f a res hr
  have hst := aggregate_ok_inv _ _ _ hagg
  subst hres
  subst hst
  constructor
  · intro h0
    simp only [mkResult, avgFeatures]
    simp only [mkResult] at h0
    simp [h0]
  · intro hpos
    simp only [mkResult] at hpos
    simp only [mkResult, avgFeatures, if_pos hpos]
    refine congrArg some (funext fun k => ?_)
    have hs := fieldSum_eq_of_all_present k
      (tracksWithFeature (buildAudioFeatures f) (collectTracks p))
      (fun af h2 => hAll af h2 k)
    rw [fieldSum, hs]

/-- C6 witness scenario: two tracks with complete feature records and one
track without a record. -/
def afFull (i : String) (q : ℚ) : AudioFeatures :=
  { id := some i, vals := fun _ => some q }

/-- C6 witness feature-stage response. -/
def featsC6 : List (Option AudioFeatures) :=
  [some (afFull "t1" (1 / 2)), none, some (afFull "t2" (1 / 4))]

/-- C6 witness pages: t1 and t2 have records, t3 has none. -/
def pagesC6 : List Page :=
  [⟨[⟨some (mkTrack "t1" [artistA])⟩, ⟨some (mkTrack "t2" [artistA])⟩,
     ⟨some (mkTrack "t3" [artistB])⟩]⟩]

/-- The concrete response of the C6 scenario. -/
def resC6 : AnalysisResult :=
  okOr emptyResult
    (analyzeCore (Except.ok sampleMeta) (Except.ok pagesC6)
      (Except.ok featsC6) (Except.ok []))

/-- Witness for claim C6 on the concrete scenario. -/
theorem claim_C6_witness :
    (resC6.featuresCount = 0 → resC6.avgFeatures = none) ∧
    (0 < resC6.featuresCount →
      resC6.avgFeatures = some (fun k =>
        round3 ((fieldValues (tracksWithFeature (buildAudioFeatures featsC6) (collectTracks pagesC6)) k).sum /
          ((tracksWithFeature (buildAudioFeatures featsC6) (collectTracks pagesC6)).length : ℚ)))) :=
  claim_C6 sampleMeta pagesC6 featsC6 [] resC6 rfl (by decide)

/-- A track whose single artist is named Alice (a non-index key). -/
def artistAlice : ArtistRef := { id := some "aA", name := some "Alice" }

/-- A track artist named 311: an array-index-like key, which Object
property enumeration moves ahead of all non-index keys. -/
def artist311 : ArtistRef := { id := some "aB", name := some "311" }

/-- C7 counterexample pages: Alice is credited first, 311 second, both on
exactly one track (tied counts). -/
def pagesC7idx : List Page :=
  [⟨[⟨some (mkTrack "t1" [artistAlice])⟩, ⟨some (mkTrack "t2" [artist311])⟩]⟩]

/-- Claim C7, counterexample: with artist Alice first seen before artist
311 and both counts tied at 1, first-seen order among the tie would give
top_artists = [(Alice, 1), (311, 1)], but Object.entries enumerates the
array-index-like key 311 first, so the program returns
[(311, 1), (Alice, 1)]: the claimed first-seen tie order fails. -/
theorem claim_C7_counterexample :
    Except.map AnalysisResult.topArtists
        (analyzeCore (Except.ok sampleMeta) (Except.ok pagesC7idx)
          (Except.ok []) (Except.ok []))
      = Except.ok [("311", 1), ("Alice", 1)] ∧
    Except.map AnalysisResult.topArtists
        (analyzeCore (Except.ok sampleMeta) (Except.ok pagesC7idx)
          (Except.ok []) (Except.ok []))
      ≠ Except.ok [("Alice", 1), ("311", 1)] := by
  have h1 : Except.map AnalysisResult.topArtists
      (analyzeCore (Except.ok sampleMeta) (Except.ok pagesC7idx)
        (Except.ok []) (Except.ok []))
      = Except.ok [("311", 1), ("Alice", 1)] := rfl
  refine ⟨h1, fun h => ?_⟩
  rw [h1] at h
  exact absurd (Except.ok.inj h) (by decide)

/-- Claim C7, amended: each of top_artists, top_tracks and top_genres is
the take-10 of the stable descending sort of its source list, hence has
length at most 10 and is non-increasing in its ranking key (count for
artists and genres, popularity for tracks); among tied keys, top_tracks
preserves original playlist order (the tuple list is the playlist tracks
in order), while top_artists and top_genres preserve the Object.entries
enumeration order of their tally objects — array-index-like keys first in
ascending numeric order, then the remaining keys in first-seen insertion
order — which coincides with first-seen insertion order whenever no key
is an array-index-like string. -/
theorem claim_C7 (m : PlaylistMeta) (p : List Page)
    (f : List (Option AudioFeatures)) (a : List ArtistRecord)
    (st : AggState) (res : AnalysisResult)
    (hagg : aggregate (buildAudioFeatures f) (collectTracks p) = Except.ok st)
    (hr : analyzeCore (Except.ok m) (Except.ok p) (Except.ok f) (Except.ok a)
      = Except.ok res) :
    (res.topArtists = (sortDesc Prod.snd (jsEntries st.artistCount)).take 10 ∧
     res.topArtists.length ≤ 10 ∧
     List.Pairwise (fun x y => Prod.snd y ≤ Prod.snd x) res.topArtists ∧
     (∀ n, (sortDesc Prod.snd (jsEntries st.artistCount)).filter (fun e => Prod.snd e == n)
       = (jsEntries st.artistCount).filter (fun e => Prod.snd e == n)) ∧
     ((∀ e ∈ st.artistCount, isIndexKey e.1 = false) →
       jsEntries st.artistCount = st.artistCount)) ∧
    (res.topTracks = (sortDesc TrackTuple.popularity st.trackPopularity).take 10 ∧
     res.topTracks.length ≤ 10 ∧
     List.Pairwise (fun x y => y.popularity ≤ x.popularity) res.topTracks ∧
     st.trackPopularity = (collectTracks p).map tupleOf ∧
     ∀ n, (sortDesc TrackTuple.popularity st.trackPopularity).filter
         (fun e => e.popularity == n)
       = st.trackPopularity.filter (fun e => e.popularity == n)) ∧
    (res.topGenres = (sortDesc Prod.snd (jsEntries (genreCount (buildArtistsMap a)))).take 10 ∧
     res.topGenres.length ≤ 10 ∧
     List.Pairwise (fun x y => Prod.snd y ≤ Prod.snd x) res.topGenres ∧
     (∀ n, (sortDesc Prod.snd (jsEntries (genreCount (buildArtistsMap a)))).filter
         (fun e => Prod.snd e == n)
       = (jsEntries (genreCount (buildArtistsMap a))).filter (fun e => Prod.snd e == n)) ∧
     ((∀ e ∈ genreCount (buildArtistsMap a), isIndexKey e.1 = false) →
       jsEntries (genreCount (buildArtistsMap a)) = genreCount (buildArtistsMap a))) := by
  obtain ⟨st2, hagg2, hres⟩ := analyzeCore_ok_inv m p f a res hr
  rw [hagg] at hagg2
  obtain rfl : st = st2 := Except.ok.inj hagg2
  subst hres
  have htp : st.trackPopularity = (collectTracks p).map tupleOf := by
    rw [aggregate_ok_inv _ _ _ hagg]
  refine ⟨⟨rfl, ?_, ?_, fun n => sortDesc_filter Prod.snd n (jsEntries st.artistCount),
      fun h => jsEntries_of_no_index st.artistCount h⟩,
    ⟨rfl, ?_, ?_, htp, fun n => sortDesc_filter TrackTuple.popularity n st.trackPopularity⟩,
    ⟨rfl, ?_, ?_, fun n => sortDesc_filter Prod.snd n (jsEntries (genreCount (buildArtistsMap a))),
      fun h => jsEntries_of_no_index (genreCount (buildArtistsMap a)) h⟩⟩
  · simp [mkResult, List.length_take]
  · exact List.Pairwise.sublist (List.take_sublist 10 _)
      (pairwise_sortDesc Prod.snd (jsEntries st.artistCount))
  · simp [mkResult, List.length_take]
  · exact List.Pairwise.sublist (List.take_sublist 10 _)
      (pairwise_sortDesc TrackTuple.popularity st.trackPopularity)
  · simp [mkResult, List.length_take]
  · exact List.Pairwise.sublist (List.take_sublist 10 _)
      (pairwise_sortDesc Prod.snd (jsEntries (genreCount (buildArtistsMap a))))

/-- The aggregation state of the C2 scenario, used as C7 witness input. -/
def stC7 : AggState :=
  okOr initAgg (aggregate (buildAudioFeatures []) (collectTracks pagesC2))

/-- The response of the C2 scenario, used as C7 witness input. -/
def resC7 : AnalysisResult :=
  okOr emptyResult
    (analyzeCore (Except.ok sampleMeta) (Except.ok pagesC2)
      (Except.ok []) (Except.ok recsC2))

/-- Witness for claim C7 on the C2 scenario, whose keys are all non-index
strings: the length bounds hold and the enumeration order reduces to
first-seen insertion order for the artist tallies. -/
theorem claim_C7_witness :
    resC7.topArtists.length ≤ 10 ∧ resC7.topTracks.length ≤ 10 ∧
    resC7.topGenres.length ≤ 10 ∧
    jsEntries stC7.artistCount = stC7.artistCount := by
  have h := claim_C7 sampleMeta pagesC2 [] recsC2 stC7 resC7 rfl rfl
  exact ⟨h.1.2.1, h.2.1.2.1, h.2.2.2.1, h.1.2.2.2.2 (by decide)⟩

/-- Claim C8: duration_human is built by flooring the millisecond total to
whole seconds and decomposing into hours, minutes, seconds; the hour part
is omitted exactly when it is zero while minutes and seconds always
appear; and recombining the h/m/s components yields back the total whole
seconds (with minutes and seconds in range). -/
theorem claim_C8 (ms : Nat) :
    (durH ms = 0 → formatDuration ms =
      toString (durM ms) ++ "m " ++ toString (durS ms) ++ "s") ∧
    (0 < durH ms → formatDuration ms =
      toString (durH ms) ++ "h " ++ toString (durM ms) ++ "m " ++
        toString (durS ms) ++ "s") ∧
    durH ms * 3600 + durM ms * 60 + durS ms = ms / 1000 ∧
    durM ms < 60 ∧ durS ms < 60 := by
  refine ⟨?_, ?_, ?_, ?_, ?_⟩
  · intro h
    rw [durH] at h
    simp only [formatDuration]
    rw [if_neg (by omega)]
    rfl
  · intro h
    rw [durH] at h
    simp only [formatDuration]
    rw [if_pos (by omega)]
    rfl
  · rw [durH, durM, durS]
    omega
  · rw [durM]
    omega
  · rw [durS]
    omega

/-- Witness for claim C8 at 59 seconds (no hour part) and at 1h 2m 3s. -/
theorem claim_C8_witness :
    durH 59000 = 0 ∧
    formatDuration 59000 =
      toString (durM 59000) ++ "m " ++ toString (durS 59000) ++ "s" ∧
    0 < durH 3723000 ∧
    formatDuration 3723000 =
      toString (durH 3723000) ++ "h " ++ toString (durM 3723000) ++ "m " ++
        toString (durS 3723000) ++ "s" :=
  ⟨by decide, (claim_C8 59000).1 (by decide), by decide,
    (claim_C8 3723000).2.1 (by decide)⟩

/-- Claim C9: the aggregation pass is total exactly under the precondition
that every retrieved track carries an artists array — it completes when
all do, and the unguarded t.artists.map makes the whole run throw the
TypeError when any track lacks the field, which the route surfaces as the
catch-all 500 analysis_failed instead of skipping the track. -/
theorem claim_C9 (afMap : List (String × AudioFeatures)) (tracks : List Track)
    (m : PlaylistMeta) (p : List Page) (f : List (Option AudioFeatures))
    (a : List ArtistRecord) :
    ((∀ t ∈ tracks, t.artists.isSome = true) →
      ∃ st, aggregate afMap tracks = Except.ok st) ∧
    ((∃ t ∈ tracks, t.artists = none) →
      aggregate afMap tracks = Except.error (AnalyzeError.jsTypeError typeErrorMsg)) ∧
    ((∃ t ∈ collectTracks p, t.artists = none) →
      analyzeRoute (Except.ok m) (Except.ok p) (Except.ok f) (Except.ok a)
        = RouteOutcome.failure 500 "analysis_failed" (some typeErrorMsg)) := by
  refine ⟨fun h => ⟨_, aggregate_ok afMap tracks h⟩, ?_, ?_⟩
  · intro h
    rw [aggregate]
    exact foldAgg_error afMap tracks initAgg h
  · intro h
    have hagg : aggregate (buildAudioFeatures f) (collectTracks p)
        = Except.error (AnalyzeError.jsTypeError typeErrorMsg) := by
      rw [aggregate]
      exact foldAgg_error _ _ _ h
    have hcore : analyzeCore (Except.ok m) (Except.ok p) (Except.ok f) (Except.ok a)
        = Except.error (AnalyzeError.jsTypeError typeErrorMsg) := by
      simp only [analyzeCore]
      rw [hagg]
    rw [analyzeRoute, hcore]
    show handleAnalyzeError (AnalyzeError.jsTypeError typeErrorMsg) = _
    rw [handleAnalyzeError, if_neg (by decide)]
    rfl

/-- C9 witness scenario: a track whose artists field is absent. -/
def trackNoArtists : Track :=
  { id := some "t9"
    name := "broken"
    duration_ms := some 100
    popularity := some 5
    artists := none }

/-- C9 witness pages: one good track, one track without artists. -/
def pagesC9 : List Page :=
  [⟨[⟨some (mkTrack "t1" [artistA])⟩, ⟨some trackNoArtists⟩]⟩]

/-- Witness for claim C9: the broken scenario fails with analysis_failed,
and the all-artists-present scenario aggregates successfully. -/
theorem claim_C9_witness :
    analyzeRoute (Except.ok sampleMeta) (Except.ok pagesC9)
        (Except.ok []) (Except.ok [])
      = RouteOutcome.failure 500 "analysis_failed" (some typeErrorMsg) ∧
    (∃ st, aggregate [] (collectTracks pagesC2) = Except.ok st) := by
  have h := claim_C9 [] (collectTracks pagesC2) sampleMeta pagesC9 [] []
  exact ⟨h.2.2 ⟨trackNoArtists, by decide, rfl⟩, h.1 (by decide)⟩

/-- The missing-as-zero sum over the records always equals the plain sum
of the values that are present (a missing field contributes 0). -/
theorem getDSum_eq_presentSum (k : FeatureField) :
    ∀ twf : List AudioFeatures,
    (twf.map (fun af => (af.vals k).getD 0)).sum = (fieldValues twf k).sum := by
  intro twf
  induction twf with
  | nil => simp [fieldValues]
  | cons af rest ih =>
    cases h0 : af.vals k with
    | none => simp [fieldValues, List.filterMap_cons, h0, ih]
    | some q => simp [fieldValues, List.filterMap_cons, h0, ih]

/-- Claim C10: a track whose feature record exists but misses (or nulls)
some named field is still counted once in features_count, the missing
field contributes 0 to that field's running sum — so the sum equals the
sum of the present values — and the reported average divides by the count
of all tracks with a record, not by the count of tracks where the field is
present. -/
theorem claim_C10 (m : PlaylistMeta) (p : List Page)
    (f : List (Option AudioFeatures)) (a : List ArtistRecord)
    (res : AnalysisResult)
    (hr : analyzeCore (Except.ok m) (Except.ok p) (Except.ok f) (Except.ok a)
      = Except.ok res) :
    res.featuresCount = (tracksWithFeature (buildAudioFeatures f) (collectTracks p)).length ∧
    (∀ k, fieldSum (buildAudioFeatures f) (collectTracks p) k =
      (fieldValues (tracksWithFeature (buildAudioFeatures f) (collectTracks p)) k).sum) ∧
    (0 < res.featuresCount →
      res.avgFeatures = some (fun k =>
        round3 ((fieldValues (tracksWithFeature (buildAudioFeatures f) (collectTracks p)) k).sum /
          (res.featuresCount : ℚ)))) := by
  obtain ⟨st, hagg, hres⟩ := analyzeCore_ok_inv m p f a res hr
  have hst := aggregate_ok_inv _ _ _ hagg
  subst hres
  subst hst
  refine ⟨rfl, fun k => by rw [fieldSum, getDSum_eq_presentSum k], ?_⟩
  intro hpos
  simp only [mkResult] at hpos
  simp only [mkResult, avgFeatures, if_pos hpos]
  refine congrArg some (funext fun k => ?_)
  rw [fieldSum, getDSum_eq_presentSum k]

/-- C10 witness scenario: a feature record for t1 that misses the tempo
field, a complete record for t2, and no record for t3. -/
def afPartial : AudioFeatures :=
  { id := some "t1"
    vals := fun k =>
      match k with
      | FeatureField.tempo => none
      | _ => some (1 / 2) }

/-- C10 witness feature-stage response. -/
def featsC10 : List (Option AudioFeatures) :=
  [some afPartial, some (afFull "t2" (1 / 4))]

/-- C10 witness pages. -/
def pagesC10 : List Page :=
  [⟨[⟨some (mkTrack "t1" [artistA])⟩, ⟨some (mkTrack "t2" [artistA])⟩,
     ⟨some (mkTrack "t3" [artistB])⟩]⟩]

/-- The concrete response of the C10 scenario. -/
def resC10 : AnalysisResult :=
  okOr emptyResult
    (analyzeCore (Except.ok sampleMeta) (Except.ok pagesC10)
      (Except.ok featsC10) (Except.ok []))

/-- Witness for claim C10: features_count is 2 (t1 counted despite its
missing tempo field) although only one record carries tempo, and the
average formula divides by 2. -/
theorem claim_C10_witness :
    resC10.featuresCount = (tracksWithFeature (buildAudioFeatures featsC10) (collectTracks pagesC10)).length ∧
    resC10.featuresCount = 2 ∧
    (fieldValues (tracksWithFeature (buildAudioFeatures featsC10) (collectTracks pagesC10)) FeatureField.tempo).length = 1 ∧
    (0 < resC10.featuresCount →
      resC10.avgFeatures = some (fun k =>
        round3 ((fieldValues (tracksWithFeature (buildAudioFeatures featsC10) (collectTracks pagesC10)) k).sum /
          (resC10.featuresCount : ℚ)))) := by
  have h := claim_C10 sampleMeta pagesC10 featsC10 [] resC10 rfl
  exact ⟨h.1, by decide, by decide, h.2.2⟩

end SpotifyAnalyzer
